import Mathlib

/-
Verification of the core behaviours of the agent-builder utilities.

Part 1 models `tools/welcome.py`: the welcome/scratchpad tool, a two-operation
(view/edit) interface over one text file at `<cwd>/.welcome`.  The file system
is modelled as `Option String` (the content of that single file, `none` when it
does not exist), and the outcome of a file open/read/write is modelled by
`FileOp` (`ok`, or `fail msg` standing for an OSError whose `str` is `msg`,
which the tool's `except Exception` handler converts to an error result).

Part 2 models `src/strands_agents_builder/utils/user_input.py`: the debounced
typing-assistant around `prompt_toolkit`.  The debounce bookkeeping of
`handle_text_change` is modelled as a state machine over a ledger of created
timers, and the advisory path `launch_assistant` as a pure function from the
buffer snapshot and the advisor call's duration/result to the final buffer,
the displayed suggestion, whether an exception escapes, and for how long the
invocation blocks the event loop.
-/

set_option autoImplicit false

/-- The default welcome banner compiled into `tools/welcome.py`
(`DEFAULT_WELCOME_TEXT`), given line by line; the Python literal has no
trailing newline, so the lines are joined with a single newline. -/
def DEFAULT_WELCOME_LINES : List String := [
  "*.*",
  "*.*",
  "*.*",
  "*welcome to strands agent builder!*",
  "# 🚀 STRANDS AGENTS SDK: Self-Extending AI Tool Building",
  "",
  "## About Agent Builder",
  "I am the Strands Agent Builder - an AI assistant dedicated to helping you build and extend AI tools using the Strands Agents framework. I\x27m designed to make the development of AI agents more accessible and powerful.",
  "",
  "GitHub Repository: https://github.com/strands-agents/agent-builder",
  "",
  "## SDKs and Tools",
  "",
  "### 📦 SDK Source",
  "https://github.com/strands-agents/sdk-python",
  "",
  "### 🧰 Tools Repository",
  "https://github.com/strands-agents/tools",
  "",
  "## Installation & Updates:",
  "",
  "### 📦 Installing Strands",
  "```bash",
  "pip install strands-agents strands-agents-tools",
  "```",
  "",
  "### 🔄 Updating Agent Builder",
  "```bash",
  "pipx install git+https://github.com/strands-agents/agent-builder.git --force",
  "# or",
  "pipx install strands-agent-builder --force",
  "```",
  "",
  "## Quick Reference Guide:",
  "",
  "### 1️⃣ Core Imports",
  "```python",
  "from strands import Agent, tool",
  "from strands_tools import load_tool, shell, editor",
  "",
  "agent = Agent(tools=[load_tool, shell, editor])",
  "```",
  "",
  "### 2️⃣ Tool Definition Pattern",
  "```python",
  "from strands import tool",
  "",
  "@tool",
  "def my_tool(param1: str, param2: int = 42) -> dict:",
  "    \"\"\"",
  "    Tool description - explain what it does.",
  "",
  "    Args:",
  "        param1: Description of first parameter",
  "        param2: Description of second parameter",
  "",
  "    Returns:",
  "        Dictionary with results",
  "    \"\"\"",
  "    try:",
  "        # Implementation",
  "        result = do_something(param1, param2)",
  "        return \x7b",
  "            \"status\": \"success\", ",
  "            \"content\": [\x7b\"text\": f\"✅ Result: \x7bresult\x7d\"\x7d]",
  "        \x7d",
  "    except Exception as e:",
  "        return \x7b",
  "            \"status\": \"error\",",
  "            \"content\": [\x7b\"text\": f\"❌ Error: \x7bstr(e)\x7d\"\x7d]",
  "        \x7d",
  "```",
  "",
  "### 3️⃣ Create & Use Tools Instantly",
  "",
  "- cwd()/tools/*.py directory is hot-reloaded. I can create tools and use them immediately.",
  "- agent.tool.load_tool(name=\"tool_name\", path=\"tool_path\") allows to load from different directories.",
  "",
  "```python",
  "# Create tool",
  "agent.tool.editor(command=\"create\", path=\"tools/data_tool.py\", file_text=\"...\")",
  "",
  "# Use immediately - no restart needed",
  "agent.tool.data_tool(\"parameter\")",
  "```",
  "",
  "### 4️⃣ Tool Building Process",
  "1. **Identify need** for new capability",
  "2. **Implement** code in tools directory",
  "3. **Use immediately** with agent.tool.tool_name()",
  "4. **Enhance iteratively** without restarts",
  "",
  "Available built-in tools:",
  "- memory",
  "- file_read",
  "- file_write",
  "- shell",
  "- editor",
  "- http_request",
  "- python_repl",
  "- calculator",
  "- retrieve",
  "- use_aws",
  "- load_tool",
  "- environment",
  "- use_llm",
  "- think",
  "- journal",
  "- image_reader",
  "- generate_image",
  "- nova_reels",
  "- agent_graph",
  "- swarm",
  "- workflow",
  "- slack",
  "- stop",
  "- speak",
  "- store_in_kb",
  "- strand",
  "- welcome",
  "",
  "I\x27m the Strands Agent Builder, your AI assistant for creating and extending AI tools! Let\x27s build something amazing together.",
  "",
  "Type *exit* to quit."]

/-- Newline separator used when joining the banner lines. -/
def nl : String := "\n"

/-- `DEFAULT_WELCOME_TEXT` from `tools/welcome.py`. -/
def DEFAULT_WELCOME_TEXT : String := String.intercalate nl DEFAULT_WELCOME_LINES

/-- A tool-use request, `tool["toolUseId"]` plus the `input` fields the
welcome tool reads: the required `action` and the optional `content`. -/
structure ToolUse where
  toolUseId : String
  action : String
  content : Option String
deriving DecidableEq, Repr

/-- A tool result: `toolUseId`, the `status` string (`"success"` or
`"error"`), and the single text entry of its `content` list. -/
structure ToolResult where
  toolUseId : String
  status : String
  text : String
deriving DecidableEq, Repr

/-- Outcome of the file operation attempted inside the `try` block:
either it succeeds, or it raises an exception whose `str` is `msg`. -/
inductive FileOp
  | ok
  | fail (msg : String)
deriving DecidableEq, Repr

/-- The `welcome` function of `tools/welcome.py`.  The file system is the
content of `<cwd>/.welcome` (`none` if absent); the result is the returned
`ToolResult` paired with the file system after the call.  `fileOp` is the
outcome of the file open performed by the branch (ignored by branches that
touch no file); a raised exception is caught by the outer handler and
rendered as `"Error: " ++ msg`. -/
def welcome (tool : ToolUse) (fs : Option String) (fileOp : FileOp) :
    ToolResult × Option String :=
  let tool_use_id := tool.toolUseId
  let action := tool.action
  if action = "edit" then
    match tool.content with
    | none =>
      -- `raise ValueError("content is required for edit action")`, caught below
      ({ toolUseId := tool_use_id, status := "error",
         text := "Error: content is required for edit action" }, fs)
    | some content =>
      match fileOp with
      | FileOp.ok =>
        ({ toolUseId := tool_use_id, status := "success",
           text := "Welcome text updated successfully" }, some content)
      | FileOp.fail msg =>
        ({ toolUseId := tool_use_id, status := "error",
           text := "Error: " ++ msg }, fs)
  else if action = "view" then
    match fs with
    | some content =>
      match fileOp with
      | FileOp.ok =>
        ({ toolUseId := tool_use_id, status := "success",
           text := "*.*" ++ nl ++ content }, fs)
      | FileOp.fail msg =>
        ({ toolUseId := tool_use_id, status := "error",
           text := "Error: " ++ msg }, fs)
    | none =>
      ({ toolUseId := tool_use_id, status := "success",
         text := "*welcome to strands!*" ++ nl ++ DEFAULT_WELCOME_TEXT }, fs)
  else
    ({ toolUseId := tool_use_id, status := "error",
       text := "Unknown action: " ++ action }, fs)

/-- Claim C3, counterexample: after `edit` with content `"hello"`, `view`
returns `status=success` but its text is `"*.*\nhello"` — the persisted-entry
tag plus a newline prefixed to the content — not exactly `"hello"` as the
claim states. -/
theorem welcome_view_text_not_exact :
    (welcome ⟨"t2", "view", none⟩
        (welcome ⟨"t1", "edit", some ("hello")⟩ none FileOp.ok).2 FileOp.ok).1.status
      = "success" ∧
    (welcome ⟨"t2", "view", none⟩
        (welcome ⟨"t1", "edit", some ("hello")⟩ none FileOp.ok).2 FileOp.ok).1.text
      ≠ "hello" := by
  constructor
  · rfl
  · decide

/-- Claim C3 (amended): `view` before any `edit` returns `status=success`
whose text is the default tag `"*welcome to strands!*"`, a newline, then the
compiled-in default banner; `edit` with content `X` persists exactly `X`, and
a subsequent `view` returns `status=success` whose text is the
persisted-entry tag `"*.*"`, a newline, then exactly `X`. -/
theorem welcome_view_roundtrip (X id0 id1 id2 : String) (fs0 : Option String) :
    (welcome ⟨id0, "view", none⟩ none FileOp.ok).1.status = "success" ∧
    (welcome ⟨id0, "view", none⟩ none FileOp.ok).1.text
      = "*welcome to strands!*" ++ nl ++ DEFAULT_WELCOME_TEXT ∧
    (welcome ⟨id1, "edit", some X⟩ fs0 FileOp.ok).2 = some X ∧
    (welcome ⟨id2, "view", none⟩
        (welcome ⟨id1, "edit", some X⟩ fs0 FileOp.ok).2 FileOp.ok).1.status
      = "success" ∧
    (welcome ⟨id2, "view", none⟩
        (welcome ⟨id1, "edit", some X⟩ fs0 FileOp.ok).2 FileOp.ok).1.text
      = "*.*" ++ nl ++ X :=
  ⟨rfl, rfl, rfl, rfl, rfl⟩

/-- Claim C7: `edit` without a `content` field returns a `status=error`
validation result (the `ValueError` message rendered by the exception
handler) and leaves the persisted entry unchanged, whatever it was and
whatever the file layer would have done. -/
theorem welcome_edit_requires_content (id : String) (fs : Option String) (fileOp : FileOp) :
    welcome ⟨id, "edit", none⟩ fs fileOp
      = ({ toolUseId := id, status := "error",
           text := "Error: content is required for edit action" }, fs) :=
  rfl

/-- Claim C8: any action other than `view` or `edit` yields a `status=error`
result whose message names the unknown action, and the persisted entry is
untouched. -/
theorem welcome_unknown_action (id a : String) (c : Option String)
    (fs : Option String) (fileOp : FileOp)
    (hv : a ≠ "view") (he : a ≠ "edit") :
    welcome ⟨id, a, c⟩ fs fileOp
      = ({ toolUseId := id, status := "error",
           text := "Unknown action: " ++ a }, fs) := by
  simp only [welcome, if_neg he, if_neg hv]

/-- Claim C8, witness: the unknown action `"bogus"` on an absent entry. -/
theorem welcome_unknown_action_witness :
    (("bogus" : String) ≠ "view" ∧ ("bogus" : String) ≠ "edit") ∧
    welcome ⟨"t9", "bogus", none⟩ none FileOp.ok
      = ({ toolUseId := "t9", status := "error",
           text := "Unknown action: " ++ "bogus" }, none) :=
  ⟨⟨by decide, by decide⟩,
    welcome_unknown_action "t9" "bogus" none none FileOp.ok (by decide) (by decide)⟩

/-- Claim C10: every branch of the welcome tool — view, edit, unknown
action, or a failure converted to an error result — returns the
`toolUseId` of the triggering request. -/
theorem welcome_preserves_toolUseId (tool : ToolUse) (fs : Option String) (fileOp : FileOp) :
    (welcome tool fs fileOp).1.toolUseId = tool.toolUseId := by
  rcases tool with ⟨id, a, c⟩
  by_cases he : a = "edit"
  · subst he
    cases c with
    | none => rfl
    | some content => cases fileOp <;> rfl
  · by_cases hv : a = "view"
    · subst hv
      cases fs with
      | none => simp [welcome, he]
      | some content => cases fileOp <;> simp [welcome, he]
    · simp [welcome, he, hv]

/-
Part 2: `src/strands_agents_builder/utils/user_input.py`.

`Buffer` is the prompt_toolkit buffer state the advisory path reads and
restores: its `text` and `cursor_position`.  The advisor call executed in the
thread pool is characterised by the wall-clock seconds it takes (`elapsed`)
and its result (`none` when the call raises, `some s` when it returns the
suggestion text `s`); `future.result(timeout=10.0)` raises `TimeoutError`
when `elapsed` exceeds the bound.  Because the user may keep typing while the
advisor call is in flight, the buffer state observed by the `finally` block
is an arbitrary `mid`, which the restore overwrites with the snapshot.
-/

/-- The interactive field's state: `buffer.text` and `buffer.cursor_position`. -/
structure Buffer where
  text : String
  cursor_position : Nat
deriving DecidableEq, Repr

/-- The 10.0-second bound passed to `future.result` in `launch_assistant`. -/
def advisorTimeout : ℚ := 10

/-- Observable outcome of one advisory invocation: the final buffer state,
the suggestion displayed to the user (if any), whether an exception escapes
the call, and for how many seconds the invocation keeps the event loop — and
with it the interactive prompt — blocked.  `launch_assistant` is a coroutine
with no `await` in its body, so everything between entering the `try` and
returning runs synchronously on the event loop. -/
structure LaunchResult where
  buffer : Option Buffer
  displayed : Option String
  raised : Bool
  blockedSeconds : ℚ
deriving DecidableEq, Repr

/-- `launch_assistant` of `user_input.py`.  `agent` is whether an agent was
supplied; `buffer` the field at call time; `mid` the (arbitrary) buffer state
at the time the `finally` block runs; `elapsed` how long the advisor call
takes; `callResult` its outcome (`none` = it raises).  The `try`/`except`
swallows timeout and failure; the `finally` writes the snapshot back over
`mid`. -/
def launch_assistant (agent : Bool) (buffer : Option Buffer) (mid : Buffer)
    (elapsed : ℚ) (callResult : Option String) : LaunchResult :=
  if agent = false then
    -- `if not agent: return`
    { buffer := buffer, displayed := none, raised := false, blockedSeconds := 0 }
  else
    match buffer with
    | none =>
      -- `if not buffer or not hasattr(buffer, "text"): return`
      { buffer := none, displayed := none, raised := false, blockedSeconds := 0 }
    | some b =>
      let current_input := b.text
      let cursor_position := b.cursor_position
      let displayed : Option String :=
        if advisorTimeout < elapsed then
          -- `future.result(timeout=10.0)` raises TimeoutError, caught silently
          none
        else
          match callResult with
          | none => none          -- advisor raised; caught silently
          | some s => if 0 < s.length then some s else none
      -- `future.result(timeout=10.0)` returns (or raises) within 10 s, but it
      -- runs synchronously on the event loop, and when it raises TimeoutError
      -- control leaves the `with ThreadPoolExecutor()` block, whose `__exit__`
      -- calls `shutdown(wait=True)` and joins the thread still running the
      -- advisor: on every path the loop stays blocked for the advisor's full
      -- duration.
      { buffer := some { mid with text := current_input,
                                  cursor_position := cursor_position },
        displayed := displayed,
        raised := false,
        blockedSeconds := elapsed }

/-- `trigger_assistant_after_pause` of `user_input.py`: runs when a debounce
timer fires; skips the advisor when the buffer is gone or empty, and its own
`try`/`except` contains any remaining failure. -/
def trigger_assistant_after_pause (agent : Bool) (buffer : Option Buffer) (mid : Buffer)
    (elapsed : ℚ) (callResult : Option String) : LaunchResult :=
  match buffer with
  | none => { buffer := none, displayed := none, raised := false, blockedSeconds := 0 }
  | some b =>
    if b.text = "" then
      { buffer := some b, displayed := none, raised := false, blockedSeconds := 0 }
    else
      launch_assistant agent (some b) mid elapsed callResult

/-- Claim C1: however the advisory invocation triggered by a debounce firing
ends — advisor success, failure, or timeout, and whatever state the buffer
reached meanwhile — the field's text and cursor position afterwards equal
exactly the pre-invocation snapshot. -/
theorem advisory_restores_buffer (agent : Bool) (b mid : Buffer)
    (elapsed : ℚ) (callResult : Option String) :
    (trigger_assistant_after_pause agent (some b) mid elapsed callResult).buffer
      = some b := by
  unfold trigger_assistant_after_pause launch_assistant
  cases agent <;> by_cases h : b.text = "" <;> simp [h]

/-- Claim C5, counterexample: an advisor that takes 25 seconds keeps the
event loop — and with it the interactive session — blocked for all
25 seconds, not at most 10.  `future.result(timeout=10.0)` raises after
10 seconds, but leaving the `with ThreadPoolExecutor()` block calls
`shutdown(wait=True)`, which joins the thread still running the advisor, and
all of this runs synchronously on the event loop.  No advisory text is
displayed, yet the wait is not bounded by the 10-second timeout and the
session is blocked throughout. -/
theorem advisor_wait_exceeds_bound :
    (launch_assistant true (some ⟨"hello there", 4⟩) ⟨"changed", 0⟩ 25
        (some ("late suggestion"))).blockedSeconds = 25 ∧
    ¬((launch_assistant true (some ⟨"hello there", 4⟩) ⟨"changed", 0⟩ 25
        (some ("late suggestion"))).blockedSeconds ≤ advisorTimeout) ∧
    (launch_assistant true (some ⟨"hello there", 4⟩) ⟨"changed", 0⟩ 25
        (some ("late suggestion"))).displayed = none := by
  refine ⟨rfl, ?_, ?_⟩ <;> norm_num [launch_assistant, advisorTimeout]

/-- Claim C5 (amended): the advisor-result wait uses a 10-second timeout and
every failure inside the debounce/advisory path is contained — no exception
escapes `launch_assistant` or the timer callback around it, a timed-out
advisor displays nothing, and an absent advisor displays nothing — but the
invocation runs synchronously on the event loop, which stays blocked for the
advisor's full duration, the timeout notwithstanding: the interactive
session is frozen, though never terminated, while the advisor runs. -/
theorem advisor_contained_but_blocking :
    advisorTimeout = 10 ∧
    (∀ (agent : Bool) (buffer : Option Buffer) (mid : Buffer)
       (elapsed : ℚ) (callResult : Option String),
      (launch_assistant agent buffer mid elapsed callResult).raised = false ∧
      (trigger_assistant_after_pause agent buffer mid elapsed callResult).raised = false ∧
      (advisorTimeout < elapsed →
        (launch_assistant agent buffer mid elapsed callResult).displayed = none) ∧
      (agent = false →
        (launch_assistant agent buffer mid elapsed callResult).displayed = none)) ∧
    (∀ (b mid : Buffer) (elapsed : ℚ) (callResult : Option String),
      (launch_assistant true (some b) mid elapsed callResult).blockedSeconds = elapsed) := by
  refine ⟨rfl, fun agent buffer mid elapsed callResult => ⟨?_, ?_, ?_, ?_⟩,
    fun b mid elapsed callResult => rfl⟩
  · unfold launch_assistant
    cases agent <;> cases buffer <;> simp
  · unfold trigger_assistant_after_pause launch_assistant
    rcases buffer with _ | b
    · simp
    · by_cases h : b.text = "" <;> cases agent <;> simp [h]
  · intro hlt
    unfold launch_assistant
    cases agent <;> cases buffer <;> simp [if_pos hlt]
  · intro ha
    subst ha
    rfl

/-- Claim C5, witness for the amended theorem: an advisor that takes
11 seconds and would have returned a suggestion displays nothing, and the
event loop is blocked for those 11 seconds. -/
theorem advisor_contained_but_blocking_witness :
    advisorTimeout < (11 : ℚ) ∧
    (launch_assistant true (some ⟨"hello there", 4⟩) ⟨"changed", 0⟩ 11
        (some ("a suggestion"))).displayed = none ∧
    (launch_assistant true (some ⟨"hello there", 4⟩) ⟨"changed", 0⟩ 11
        (some ("a suggestion"))).blockedSeconds = 11 := by
  have hlt : advisorTimeout < (11 : ℚ) := by norm_num [advisorTimeout]
  exact ⟨hlt,
    (advisor_contained_but_blocking.2.1 true (some ⟨"hello there", 4⟩) ⟨"changed", 0⟩ 11
        (some ("a suggestion"))).2.2.1 hlt,
    advisor_contained_but_blocking.2.2 ⟨"hello there", 4⟩ ⟨"changed", 0⟩ 11
        (some ("a suggestion"))⟩

/-
The debounce bookkeeping of `handle_text_change`.  Timers created by
`asyncio.create_task(trigger_assistant_after_pause(...))` are recorded in a
ledger `timers`, indexed by creation order; `typing_timer` is the index held
by the `typing_timer` variable (the most recently created task, if any);
`current_text` is the `current_text` nonlocal, i.e. the last text that
triggered a debounce.  `timer.cancel()` on a not-done task marks it
cancelled; a cancelled or fired timer can never fire.
-/

/-- Status of one created debounce timer. -/
inductive TimerStatus
  | active
  | cancelled
  | fired
deriving DecidableEq, Repr

/-- Debounce bookkeeping state of one input session. -/
structure DebounceState where
  timers : List TimerStatus
  typing_timer : Option Nat
  current_text : String
deriving DecidableEq, Repr

/-- `min_text_length = 5` in `get_user_input_async`. -/
def min_text_length : Nat := 5

/-- `typing_timer.cancel()` guarded by `not typing_timer.done()`: the `i`-th
timer becomes cancelled if it is still active, and is untouched otherwise. -/
def cancelTimer : List TimerStatus → Nat → List TimerStatus
  | [], _ => []
  | t :: ts, 0 => (if t = TimerStatus.active then TimerStatus.cancelled else t) :: ts
  | t :: ts, i + 1 => t :: cancelTimer ts i

/-- `handle_text_change` of `user_input.py`: first cancel the previous timer
if one exists and is not done; then, if an agent is available, the text is
longer than `min_text_length` and differs from the last trigger text, record
the new text and create a fresh timer. -/
def handle_text_change (agent : Bool) (s : DebounceState) (text : String) :
    DebounceState :=
  let s1 : DebounceState :=
    match s.typing_timer with
    | some i => { s with timers := cancelTimer s.timers i }
    | none => s
  if agent = true ∧ min_text_length < text.length ∧ text ≠ s1.current_text then
    { timers := s1.timers ++ [TimerStatus.active],
      typing_timer := some s1.timers.length,
      current_text := text }
  else
    s1

/-- A sequence of text-change events processed in arrival order. -/
def runEvents (agent : Bool) (s : DebounceState) (events : List String) :
    DebounceState :=
  events.foldl (handle_text_change agent) s

/-- A timer can still fire iff it is recorded active. -/
def canFire (s : DebounceState) (i : Nat) : Prop :=
  s.timers.get? i = some TimerStatus.active

/-- Session invariant: every still-active timer is the one currently held by
the `typing_timer` variable. -/
def TimerInv (s : DebounceState) : Prop :=
  ∀ i, s.timers.get? i = some TimerStatus.active → s.typing_timer = some i

theorem cancelTimer_length (l : List TimerStatus) (i : Nat) :
    (cancelTimer l i).length = l.length := by
  induction l generalizing i with
  | nil => rfl
  | cons t ts ih =>
    cases i with
    | zero => simp [cancelTimer]
    | succ j => simp [cancelTimer, ih]

theorem cancelTimer_get_self (l : List TimerStatus) (i : Nat) :
    (cancelTimer l i).get? i ≠ some TimerStatus.active := by
  induction l generalizing i with
  | nil => simp [cancelTimer]
  | cons t ts ih =>
    cases i with
    | zero =>
      by_cases h : t = TimerStatus.active <;> simp [cancelTimer, h, List.get?]
    | succ j => simpa [cancelTimer, List.get?] using ih j

theorem cancelTimer_get_ne (l : List TimerStatus) (i j : Nat) (h : j ≠ i) :
    (cancelTimer l i).get? j = l.get? j := by
  induction l generalizing i j with
  | nil => simp [cancelTimer]
  | cons t ts ih =>
    cases i with
    | zero =>
      cases j with
      | zero => exact absurd rfl h
      | succ k => simp [cancelTimer, List.get?]
    | succ i' =>
      cases j with
      | zero => simp [cancelTimer, List.get?]
      | succ k =>
        have hk : k ≠ i' := fun he => h (by simp [he])
        simpa [cancelTimer, List.get?] using ih i' k hk

theorem handle_text_change_none (agent : Bool) (s : DebounceState) (text : String)
    (h : s.typing_timer = none) :
    handle_text_change agent s text =
      if agent = true ∧ min_text_length < text.length ∧ text ≠ s.current_text then
        { timers := s.timers ++ [TimerStatus.active],
          typing_timer := some s.timers.length,
          current_text := text }
      else s := by
  simp [handle_text_change, h]

theorem handle_text_change_some (agent : Bool) (s : DebounceState) (text : String)
    (i : Nat) (h : s.typing_timer = some i) :
    handle_text_change agent s text =
      if agent = true ∧ min_text_length < text.length ∧ text ≠ s.current_text then
        { timers := cancelTimer s.timers i ++ [TimerStatus.active],
          typing_timer := some (cancelTimer s.timers i).length,
          current_text := text }
      else { s with timers := cancelTimer s.timers i } := by
  simp [handle_text_change, h]

theorem no_active_of_timer_none (s : DebounceState) (hs : TimerInv s)
    (h : s.typing_timer = none) :
    ∀ k, s.timers.get? k ≠ some TimerStatus.active := by
  intro k hk
  have := hs k hk
  rw [h] at this
  exact Option.noConfusion this

theorem no_active_after_cancel (s : DebounceState) (hs : TimerInv s)
    (i : Nat) (h : s.typing_timer = some i) :
    ∀ k, (cancelTimer s.timers i).get? k ≠ some TimerStatus.active := by
  intro k hk
  by_cases hki : k = i
  · subst hki
    exact cancelTimer_get_self s.timers k hk
  · rw [cancelTimer_get_ne s.timers i k hki] at hk
    have := hs k hk
    rw [h] at this
    exact hki (by injection this with h'; exact h'.symm)

theorem append_active_index (M : List TimerStatus)
    (hM : ∀ k, M.get? k ≠ some TimerStatus.active) :
    ∀ j, (M ++ [TimerStatus.active]).get? j = some TimerStatus.active → j = M.length := by
  intro j hj
  rcases Nat.lt_or_ge j M.length with hlt | hge
  · rw [List.get?_append hlt] at hj
    exact absurd hj (hM j)
  · rw [List.get?_append_right hge] at hj
    cases hd : j - M.length with
    | zero => omega
    | succ k =>
      rw [hd] at hj
      simp [List.get?] at hj

theorem timerInv_step (agent : Bool) (s : DebounceState) (text : String)
    (hs : TimerInv s) : TimerInv (handle_text_change agent s text) := by
  cases hty : s.typing_timer with
  | none =>
    rw [handle_text_change_none agent s text hty]
    split
    · intro j hj
      have hj' := append_active_index s.timers (no_active_of_timer_none s hs hty) j hj
      simp [hj']
    · exact hs
  | some i =>
    rw [handle_text_change_some agent s text i hty]
    split
    · intro j hj
      have hj' := append_active_index (cancelTimer s.timers i)
        (no_active_after_cancel s hs i hty) j hj
      simp [hj']
    · intro j hj
      exact absurd hj (no_active_after_cancel s hs i hty j)

theorem step_active_ge (agent : Bool) (s : DebounceState) (text : String)
    (hs : TimerInv s) :
    ∀ j, (handle_text_change agent s text).timers.get? j = some TimerStatus.active →
      s.timers.length ≤ j := by
  intro j hj
  cases hty : s.typing_timer with
  | none =>
    rw [handle_text_change_none agent s text hty] at hj
    split at hj
    · have hj' := append_active_index s.timers (no_active_of_timer_none s hs hty) j hj
      omega
    · exact absurd hj (no_active_of_timer_none s hs hty j)
  | some i =>
    rw [handle_text_change_some agent s text i hty] at hj
    split at hj
    · have hj' := append_active_index (cancelTimer s.timers i)
        (no_active_after_cancel s hs i hty) j hj
      have := cancelTimer_length s.timers i
      omega
    · exact absurd hj (no_active_after_cancel s hs i hty j)

theorem timerInv_run (agent : Bool) (s : DebounceState) (events : List String)
    (hs : TimerInv s) : TimerInv (runEvents agent s events) := by
  induction events generalizing s with
  | nil => exact hs
  | cons e es ih => exact ih (handle_text_change agent s e) (timerInv_step agent s e hs)

theorem runEvents_append_last (agent : Bool) (s : DebounceState)
    (events : List String) (t : String) :
    runEvents agent s (events ++ [t])
      = handle_text_change agent (runEvents agent s events) t := by
  simp [runEvents, List.foldl_append]

/-- Claim C2: after any text-change event from an invariant-respecting state,
the invariant is preserved; at most one debounce timer is still able to fire
(any two fireable timers coincide); and across any event sequence ending in a
quiescent pause, every timer that can still fire was created by the last
event — all of its predecessors have been cancelled. -/
theorem debounce_single_active_timer (agent : Bool) (s : DebounceState)
    (text t : String) (events : List String) (hs : TimerInv s) :
    TimerInv (handle_text_change agent s text) ∧
    (∀ i j, canFire (handle_text_change agent s text) i →
      canFire (handle_text_change agent s text) j → i = j) ∧
    (∀ i, canFire (runEvents agent s (events ++ [t])) i →
      (runEvents agent s events).timers.length ≤ i) := by
  refine ⟨timerInv_step agent s text hs, ?_, ?_⟩
  · intro i j hi hj
    have h1 := timerInv_step agent s text hs i hi
    have h2 := timerInv_step agent s text hs j hj
    rw [h1] at h2
    injection h2
  · intro i hi
    rw [runEvents_append_last agent s events t] at hi
    exact step_active_ge agent (runEvents agent s events) t
      (timerInv_run agent s events hs) i hi

/-- Claim C2, witness: the empty session, a burst of three rapid events. -/
theorem debounce_single_active_timer_witness :
    TimerInv ⟨[], none, ""⟩ ∧
    (TimerInv (handle_text_change true ⟨[], none, ""⟩ "hello world") ∧
     (∀ i j, canFire (handle_text_change true ⟨[], none, ""⟩ "hello world") i →
       canFire (handle_text_change true ⟨[], none, ""⟩ "hello world") j → i = j) ∧
     (∀ i, canFire (runEvents true ⟨[], none, ""⟩ (["hello", "hello wo"] ++ ["hello world"])) i →
       (runEvents true ⟨[], none, ""⟩ ["hello", "hello wo"]).timers.length ≤ i)) :=
  ⟨fun _ h => Option.noConfusion h,
   debounce_single_active_timer true ⟨[], none, ""⟩ "hello world" "hello world"
     ["hello", "hello wo"] (fun _ h => Option.noConfusion h)⟩

/-- Claim C6: a text-change event with text shorter than the minimum trigger
length starts no debounce timer (the timer ledger does not grow), and a timer
is started only when the text length exceeds the 5-character threshold and
the text differs from the last text that triggered a debounce. -/
theorem handle_text_change_threshold (agent : Bool) (s : DebounceState) (text : String) :
    (text.length < min_text_length →
      (handle_text_change agent s text).timers.length = s.timers.length) ∧
    ((handle_text_change agent s text).timers.length ≠ s.timers.length →
      min_text_length < text.length ∧ text ≠ s.current_text) := by
  cases hty : s.typing_timer with
  | none =>
    rw [handle_text_change_none agent s text hty]
    split
    · next hc =>
      constructor
      · intro hshort
        exact absurd hc.2.1 (by omega)
      · intro _
        exact ⟨hc.2.1, hc.2.2⟩
    · exact ⟨fun _ => rfl, fun hne => absurd rfl hne⟩
  | some i =>
    rw [handle_text_change_some agent s text i hty]
    split
    · next hc =>
      constructor
      · intro hshort
        exact absurd hc.2.1 (by omega)
      · intro _
        exact ⟨hc.2.1, hc.2.2⟩
    · refine ⟨fun _ => ?_, fun hne => absurd ?_ hne⟩ <;>
        simpa using cancelTimer_length s.timers i

/-- Claim C6, witness: the two-character text `"hi"` starts no timer even
with an agent present and a previously active timer. -/
theorem handle_text_change_threshold_witness :
    ("hi" : String).length < min_text_length ∧
    (handle_text_change true ⟨[TimerStatus.active], some 0, "old"⟩ "hi").timers.length
      = (⟨[TimerStatus.active], some 0, "old"⟩ : DebounceState).timers.length :=
  ⟨by decide,
   (handle_text_change_threshold true ⟨[TimerStatus.active], some 0, "old"⟩ "hi").1
     (by decide)⟩

/-
Completion of `get_user_input_async`.  The function body awaits the prompt;
three things can end the wait: the user submits a line, a `KeyboardInterrupt`
(user interrupt), or an `EOFError` (end-of-input).  On submission the code
cancels a still-pending (`not done()`) timer and returns the response; the
two exceptional outcomes jump straight to the `except` clause, which returns
the default.  The model takes the timer state at completion time and returns
the resolved string together with the timer state after the call. -/

/-- How the awaited prompt ends. -/
inductive PromptOutcome
  | submitted (response : String)
  | interrupted
  | endOfInput
deriving DecidableEq, Repr

/-- Completion step of `get_user_input_async` of `user_input.py`:
`defaultVal` is the `default` argument, `typing_timer` the state of the timer
task at completion (none when no timer was ever created). -/
def get_user_input_async (defaultVal : String) (typing_timer : Option TimerStatus)
    (outcome : PromptOutcome) : String × Option TimerStatus :=
  match outcome with
  | PromptOutcome.submitted response =>
    -- `if typing_timer and not typing_timer.done(): typing_timer.cancel()`
    let t' : Option TimerStatus :=
      match typing_timer with
      | some TimerStatus.active => some TimerStatus.cancelled
      | other => other
    (response, t')
  | PromptOutcome.interrupted =>
    -- `except (KeyboardInterrupt, EOFError): return default`
    (defaultVal, typing_timer)
  | PromptOutcome.endOfInput =>
    (defaultVal, typing_timer)

/-- Claim C4, counterexample: an interrupt arriving while a debounce timer is
pending returns the default, but leaves the timer active — the claimed
cancellation does not happen on the interrupt/end-of-input path, because the
exception jumps over the cancellation code straight to the handler. -/
theorem get_user_input_async_interrupt_keeps_timer :
    (get_user_input_async "fallback" (some TimerStatus.active)
        PromptOutcome.interrupted).2 = some TimerStatus.active ∧
    TimerStatus.active ≠ TimerStatus.cancelled := by
  exact ⟨rfl, by decide⟩

/-- Claim C4 (amended): interrupt and end-of-input both resolve the call with
the supplied default value verbatim, but leave any pending debounce timer in
whatever state it was — uncancelled if it was active; the pending timer is
cancelled only on normal submission. -/
theorem get_user_input_async_default_on_interrupt
    (defaultVal : String) (typing_timer : Option TimerStatus) (response : String) :
    get_user_input_async defaultVal typing_timer PromptOutcome.interrupted
      = (defaultVal, typing_timer) ∧
    get_user_input_async defaultVal typing_timer PromptOutcome.endOfInput
      = (defaultVal, typing_timer) ∧
    get_user_input_async defaultVal (some TimerStatus.active)
        (PromptOutcome.submitted response)
      = (response, some TimerStatus.cancelled) :=
  ⟨rfl, rfl, rfl⟩

/-
`get_history_file_path` of `user_input.py`.  Inputs: the value of the
`STRANDS_INPUT_HISTORY_PATH` environment variable (`none` when unset; the
code tests its truthiness, so the empty string counts as unset), the home
directory, and whether `<home>/.strands` already exists.  `dirCreated`
records the `mkdir(parents=True, exist_ok=True)` side effect.  Note that
`Path.mkdir` returns `None`, so the condition
`home_path.parent.exists() or home_path.parent.mkdir(...)` is falsy whenever
the directory did not already exist, even though the `mkdir` succeeds. -/

/-- Result of resolving the history file path: the chosen path, and whether
`<home>/.strands` was created as a side effect. -/
structure HistoryPathResult where
  path : String
  dirCreated : Bool
deriving DecidableEq, Repr

/-- `get_history_file_path` of `user_input.py`. -/
def get_history_file_path (envVar : Option String) (home : String)
    (parentExists : Bool) : HistoryPathResult :=
  let history_path := envVar.getD ("")
  if history_path ≠ "" then
    { path := history_path, dirCreated := false }
  else if parentExists then
    { path := home ++ "/.strands/input_history", dirCreated := false }
  else
    -- `mkdir` runs and creates the directory, but returns None, so the
    -- `or`-condition is falsy and the fixed fallback is returned
    { path := "/tmp/input_history", dirCreated := true }

/-- Claim C9, bug exhibit: with the environment variable unset and
`<home>/.strands` absent, the code creates `<home>/.strands` and then
returns the fallback `/tmp/input_history` instead of the home-based path —
`Path.mkdir` returns `None`, so the `exists() or mkdir(...)` condition is
falsy even though the directory was just created successfully.  The
environment-supplied path, when set, is returned as the first priority. -/
theorem get_history_file_path_bug :
    get_history_file_path none "/home/user" false
      = { path := "/tmp/input_history", dirCreated := true } ∧
    "/tmp/input_history" ≠ "/home/user" ++ "/.strands/input_history" ∧
    get_history_file_path (some ("/custom/hist")) "/home/user" false
      = { path := "/custom/hist", dirCreated := false } ∧
    get_history_file_path none "/home/user" true
      = { path := "/home/user" ++ "/.strands/input_history", dirCreated := false } := by
  refine ⟨by decide, by decide, by decide, by decide⟩
